import Mathlib

/-!
Verification of the DataCite REST API client wrapper (`client.py`) against its
natural-language specification.

The embedding models the HTTP transport as an oracle passed to each operation:
for the DOI client a function from the issued request to a transport result
(a response, or a transport-level failure such as a connection error or
timeout, in which case the underlying `requests` call raises without
producing a response); for the usage-report retry loop, an attempt-indexed
oracle, since the same request is re-issued on each attempt.

Python exceptions are modelled with `Except`: an operation either returns a
value (`Except.ok`) or lets an exception propagate to the caller
(`Except.error`). Each operation also returns the list of HTTP requests it
issued, in order, so that claims about which calls are made ("exactly one
PUT", "no request issued") are statable.
-/

/-- HTTP method of a request issued through the `requests` library. -/
inductive Method where
  | POST
  | PUT
  | DELETE
  | GET
deriving DecidableEq, Repr

/-- Body of an HTTP request: absent, the raw string passed as `data=...`, or
the gzip compression of a string (`gzip.compress(data.encode())`). -/
inductive Body where
  | empty
  | raw (s : String)
  | gzipped (s : String)
deriving DecidableEq, Repr

/-- An HTTP request as assembled by the client: method, url, body, headers,
and optional HTTP Basic auth credentials. -/
structure HttpRequest where
  method : Method
  url : String
  body : Body
  headers : List (String × String)
  auth : Option (String × String)
deriving DecidableEq, Repr

/-- An HTTP response; only the status code matters to the client's control
flow (`response.status_code` / `raise_for_status`). -/
structure Response where
  status : Nat
deriving DecidableEq, Repr

/-- Result of handing a request to the transport: either a response came
back, or the `requests` call raised a transport-level error (connection
error, timeout) without any response being received. -/
inductive TransportResult where
  | resp (r : Response)
  | transportError
deriving DecidableEq, Repr

/-- Exceptions that can propagate out of the client's methods. The two
Datacite error classes come from the repository's `exceptions` module
(absent from the snapshot; the spec names the corresponding error kinds
AuthenticationMissing and ReportIdMissing). `nameError` models Python's
NameError on an unbound name. -/
inductive PyError where
  | httpError (r : Response)
  | transportError
  | nameError (name : String)
  | dataciteAPIAuthenticationError
  | dataciteCompressedReportUUIDMissingError
deriving DecidableEq, Repr

/-- Does `response.raise_for_status()` raise? `requests` raises
`HTTPError` exactly for client-error (4xx) and server-error (5xx) codes. -/
def isErrorStatus (s : Nat) : Bool :=
  decide (400 ≤ s) && decide (s < 600)

/-- State of a `DataciteRESTAPIClient` instance after `__init__`: base url
and HTTP Basic credentials. The constant `Content-Type` header is
`doiHeaders` below; the vestigial write-only `action` attribute is not part
of any observable behaviour and is omitted. -/
structure DataciteRESTAPIClient where
  url : String
  username : String
  password : String
deriving DecidableEq, Repr

/-- Header dict set in `DataciteRESTAPIClient.__init__`. -/
def doiHeaders : List (String × String) :=
  [("Content-Type", "application/vnd.api+json")]

/-- The POST request issued by `create_or_update_doi`: target
`{url}/dois`, payload `data`, JSONAPI content type, basic auth. -/
def postRequest (c : DataciteRESTAPIClient) (data : String) : HttpRequest :=
  { method := Method.POST
    url := c.url ++ "/dois"
    body := Body.raw data
    headers := doiHeaders
    auth := some (c.username, c.password) }

/-- The fallback PUT request issued by `create_or_update_doi` on a 422:
target `{url}/dois/{doi}`, same payload, same headers and auth. -/
def putRequest (c : DataciteRESTAPIClient) (data : String) (doi : String) :
    HttpRequest :=
  { method := Method.PUT
    url := c.url ++ "/dois/" ++ doi
    body := Body.raw data
    headers := doiHeaders
    auth := some (c.username, c.password) }

/-- Embedding of `DataciteRESTAPIClient.create_or_update_doi`.

POST the payload to `{url}/dois`; `raise_for_status`; on success set
`created = True`. The `except requests.exceptions.HTTPError` handler checks
`response.status_code == 422` and, if so, PUTs the same payload to
`{url}/dois/{doi}`, calls `raise_for_status` again (an HTTPError raised
there is inside the handler and is not caught, so it propagates), and sets
`updated = True`. A transport-level error from either `requests` call is
not an `HTTPError` and propagates. Returns `(created, updated, response)`
when control reaches the final `return`, plus the list of requests issued. -/
def create_or_update_doi (c : DataciteRESTAPIClient)
    (transport : HttpRequest → TransportResult) (data : String) (doi : String) :
    Except PyError (Bool × Bool × Option Response) × List HttpRequest :=
  let post := postRequest c data
  match transport post with
  | TransportResult.transportError => (Except.error PyError.transportError, [post])
  | TransportResult.resp r =>
    if isErrorStatus r.status then
      if r.status = 422 then
        let put := putRequest c data doi
        match transport put with
        | TransportResult.transportError =>
            (Except.error PyError.transportError, [post, put])
        | TransportResult.resp r2 =>
          if isErrorStatus r2.status then
            (Except.error (PyError.httpError r2), [post, put])
          else
            (Except.ok (false, true, some r2), [post, put])
      else
        (Except.ok (false, false, some r), [post])
    else
      (Except.ok (true, false, some r), [post])

/-- The DELETE request `delete_doi` assembles (its url and auth arguments;
the `headers` argument is the unbound name discussed at `delete_doi`). -/
def deleteRequest (c : DataciteRESTAPIClient) (doi : String)
    (hdrs : List (String × String)) : HttpRequest :=
  { method := Method.DELETE
    url := c.url ++ "/dois/" ++ doi
    body := Body.empty
    headers := hdrs
    auth := some (c.username, c.password) }

/-- Embedding of `DataciteRESTAPIClient.delete_doi`.

The source passes `headers=headers` to `requests.delete`, a bare name: no
local, parameter or module-level binding of `headers` exists in `client.py`
(the star import brings in the exceptions module's error classes only), so
evaluating the argument raises `NameError` before `requests.delete` is
invoked; the `except requests.exceptions.HTTPError` handler does not catch
`NameError`, so it propagates and no DELETE request is ever issued. -/
def delete_doi (c : DataciteRESTAPIClient)
    (transport : HttpRequest → TransportResult) (doi : String) :
    Except PyError (Bool × Option Response) × List HttpRequest :=
  (Except.error (PyError.nameError "headers"), [])

/-- What `delete_doi` would do were the unbound `headers` name bound to the
instance headers (`self.headers`), i.e. the behaviour the spec describes:
issue one DELETE, `raise_for_status`, `deleted = True` on success; the
handler catches the HTTPError and leaves `deleted = False`. -/
def delete_doi_intended (c : DataciteRESTAPIClient)
    (transport : HttpRequest → TransportResult) (doi : String) :
    Except PyError (Bool × Option Response) × List HttpRequest :=
  let req := deleteRequest c doi doiHeaders
  match transport req with
  | TransportResult.transportError => (Except.error PyError.transportError, [req])
  | TransportResult.resp r =>
    if isErrorStatus r.status then
      (Except.ok (false, some r), [req])
    else
      (Except.ok (true, some r), [req])

/-- The GET request the spec's `retrieve` operation issues, to the
resource path `{url}/dois/{doi}` with the DOI client's headers and auth. -/
def getRequest (c : DataciteRESTAPIClient) (doi : String) : HttpRequest :=
  { method := Method.GET
    url := c.url ++ "/dois/" ++ doi
    body := Body.empty
    headers := doiHeaders
    auth := some (c.username, c.password) }

/-- Modelled from the spec: the DOI Resource Client's `retrieve` operation
is described in the specification (a GET to the resource path; return the
response on 2xx; on HTTP error return null, the failure being swallowed)
but no `retrieve` method is present in the repository snapshot under `src/`.
The embedding follows the spec's words, with the repository's uniform
exception discipline (only `HTTPError` is caught, so a transport-level
failure propagates). -/
def retrieve (c : DataciteRESTAPIClient)
    (transport : HttpRequest → TransportResult) (doi : String) :
    Except PyError (Option Response) × List HttpRequest :=
  let req : HttpRequest := getRequest c doi
  match transport req with
  | TransportResult.transportError => (Except.error PyError.transportError, [req])
  | TransportResult.resp r =>
    if isErrorStatus r.status then
      (Except.ok none, [req])
    else
      (Except.ok (some r), [req])

/-- State of a `DataciteUsageReportsAPIClient` instance after a successful
`__init__`: base url, bearer token, the gzip/authorization header dict, and
`maximum_attempts_on_failure` (set to 10). -/
structure DataciteUsageReportsAPIClient where
  url : String
  bearer : String
  headers : List (String × String)
  maximum_attempts_on_failure : Nat
deriving DecidableEq, Repr

/-- Embedding of `DataciteUsageReportsAPIClient.__init__`. The bearer
argument is an `Option String` so that both a null (None) and an empty
token are representable; `if not self.bearer` is true exactly for those
two falsy values and raises `DataciteAPIAuthenticationError` before the
header dict is built. No `requests` call occurs in the constructor. -/
def usageReportsClientInit (url : String) (bearer : Option String) :
    Except PyError DataciteUsageReportsAPIClient :=
  match bearer with
  | none => Except.error PyError.dataciteAPIAuthenticationError
  | some b =>
    if b = "" then
      Except.error PyError.dataciteAPIAuthenticationError
    else
      Except.ok
        { url := url
          bearer := b
          headers :=
            [("Content-Type", "application/gzip"),
             ("Content-Encoding", "gzip"),
             ("Accept", "gzip"),
             ("Authorization", "Bearer " ++ b)]
          maximum_attempts_on_failure := 10 }

/-- The request assembled on every attempt of the retry loop:
`getattr(requests, method)(url, data=gzip.compress(data.encode()), headers=headers)`.
No auth argument is passed (authorization travels in the header dict). -/
def retryRequest (url : String) (method : Method) (data : String)
    (headers : List (String × String)) : HttpRequest :=
  { method := method
    url := url
    body := Body.gzipped data
    headers := headers
    auth := none }

/-- Embedding of `DataciteUsageReportsAPIClient.retry_on_failure`.

The source defines the function without a `self` parameter (its first
positional parameter is `url`), yet its loop header reads
`for attempt in range(self.maximum_attempts_on_failure):`. The name `self`
is therefore unbound in the body, so every invocation — however the call
is spelled — raises `NameError` at the loop header, before the first
attempt: no HTTP request is issued and no sleep is performed. The result
triple mirrors the intended model below: returned value or propagated
exception, number of requests issued, number of sleeps. -/
def retry_on_failure (url : String) (method : Method) (data : String)
    (headers : List (String × String)) (transport : Nat → TransportResult) :
    Except PyError (Option Response) × Nat × Nat :=
  (Except.error (PyError.nameError "self"), 0, 0)

/-- The `for attempt in range(...)` loop that `retry_on_failure`'s body
spells out but, with its unbound `self`, can never reach; modelled here by
structural recursion on the remaining attempts so that the retry policy
the source intends (and the spec describes) can be stated and contrasted
with the NameError the source actually produces. `i` is the index of the
next attempt and `sleeps` the number of `time.sleep(1)` calls performed so
far; `last` is the value of the `response` variable (None before the first
attempt). On each attempt the request is handed to the attempt-indexed
transport: a non-error response returns immediately from inside the `try`;
an HTTPError from `raise_for_status` is caught, the status is logged, one
1-second sleep happens, and the loop continues; a transport-level error is
not an HTTPError and propagates. When the loop exhausts, the final
`return response` returns the last response seen. -/
def retryGo (transport : Nat → TransportResult) :
    Nat → Nat → Nat → Option Response →
    Except PyError (Option Response) × Nat × Nat
  | 0, i, sleeps, last => (Except.ok last, i, sleeps)
  | fuel + 1, i, sleeps, last =>
    match transport i with
    | TransportResult.transportError => (Except.error PyError.transportError, i + 1, sleeps)
    | TransportResult.resp r =>
      if isErrorStatus r.status then
        retryGo transport fuel (i + 1) (sleeps + 1) (some r)
      else
        (Except.ok (some r), i + 1, sleeps)

/-- The repaired variant of `retry_on_failure` — the loop run as the
source intends, with the attempt budget (the instance's
`maximum_attempts_on_failure`, set to 10 by `__init__`) supplied instead of
read through the unbound `self`. Recorded for contrast with the NameError
behaviour of `retry_on_failure` itself; the attempt-indexed transport
decides each issued request's outcome, the request being the same
`retryRequest` every time. -/
def retry_on_failure_intended (maxAttempts : Nat)
    (transport : Nat → TransportResult) :
    Except PyError (Option Response) × Nat × Nat :=
  retryGo transport maxAttempts 0 0 none

/-- Embedding of `DataciteUsageReportsAPIClient.create_or_update_report`.
A falsy (empty) uuid raises `DataciteCompressedReportUUIDMissingError`;
otherwise the file at `filepath` is read (the claim's precondition that
the path is readable is modelled by passing the contents), after which the
method invokes the name `retry_if_500`. That name is bound nowhere: not in
`client.py` (the defined helper is `retry_on_failure`, which is never
called) and not by the star import of the exceptions module, which per the
spec supplies the error classes. The name lookup raises `NameError` before
the call's arguments are used, so no HTTP request is ever issued. -/
def create_or_update_report (c : DataciteUsageReportsAPIClient)
    (fileContents : String) (uuid : String) :
    Except PyError Response × List HttpRequest :=
  if uuid = "" then
    (Except.error PyError.dataciteCompressedReportUUIDMissingError, [])
  else
    (Except.error (PyError.nameError "retry_if_500"), [])

/-! Concrete fixtures used to instantiate the theorems below. -/

/-- Concrete DOI client instance. -/
def client0 : DataciteRESTAPIClient :=
  { url := "https://api.test.datacite.org"
    username := "user"
    password := "pass" }

/-- Concrete usage-reports client instance, as produced by `__init__` with
bearer token `token`. -/
def usageClient0 : DataciteUsageReportsAPIClient :=
  { url := "https://api.test.datacite.org"
    bearer := "token"
    headers :=
      [("Content-Type", "application/gzip"),
       ("Content-Encoding", "gzip"),
       ("Accept", "gzip"),
       ("Authorization", "Bearer token")]
    maximum_attempts_on_failure := 10 }

/-- Transport answering every request with the given status. -/
def transportConst (s : Nat) : HttpRequest → TransportResult :=
  fun _ => TransportResult.resp ⟨s⟩

/-- Transport answering the POST with 422 and every other request with the
given status. -/
def transport422then (s : Nat) : HttpRequest → TransportResult :=
  fun q =>
    match q.method with
    | Method.POST => TransportResult.resp ⟨422⟩
    | _ => TransportResult.resp ⟨s⟩

/-- Transport on which every request fails at the connection level. -/
def transportDown : HttpRequest → TransportResult :=
  fun _ => TransportResult.transportError

/-- Transport answering the POST with 422 and failing every other request
at the connection level. -/
def transport422down : HttpRequest → TransportResult :=
  fun q =>
    match q.method with
    | Method.POST => TransportResult.resp ⟨422⟩
    | _ => TransportResult.transportError

/-- C1: for every payload and identifier (and every transport), whenever
`create_or_update_doi` returns a `(created, updated, response)` tuple, the
pair of flags is one of (true, false), (false, true), (false, false);
`created` and `updated` are never both true. -/
theorem createOrUpdate_outcome_exclusive (c : DataciteRESTAPIClient)
    (t : HttpRequest → TransportResult) (data doi : String)
    (cr up : Bool) (r : Option Response)
    (h : (create_or_update_doi c t data doi).1 = Except.ok (cr, up, r)) :
    (cr = true ∧ up = false) ∨ (cr = false ∧ up = true) ∨
      (cr = false ∧ up = false) := by
  simp only [create_or_update_doi] at h
  split at h
  · exact absurd h (by simp)
  · split at h
    · split at h
      · split at h
        · exact absurd h (by simp)
        · split at h
          · exact absurd h (by simp)
          · simp only [Except.ok.injEq, Prod.mk.injEq] at h
            exact Or.inr (Or.inl ⟨h.1.symm, h.2.1.symm⟩)
      · simp only [Except.ok.injEq, Prod.mk.injEq] at h
        exact Or.inr (Or.inr ⟨h.1.symm, h.2.1.symm⟩)
    · simp only [Except.ok.injEq, Prod.mk.injEq] at h
      exact Or.inl ⟨h.1.symm, h.2.1.symm⟩

/-- C1 witness: instantiation at a transport whose create call succeeds. -/
theorem createOrUpdate_outcome_exclusive_witness :
    (true = true ∧ false = false) ∨ (true = false ∧ false = true) ∨
      (true = false ∧ false = false) :=
  createOrUpdate_outcome_exclusive client0 (transportConst 201) "payload"
    "10.5072/1" true false (some ⟨201⟩) rfl

/-- C2: for every payload, identifier and transport, the update (PUT)
requests issued by `create_or_update_doi` are exactly one PUT to
`{url}/dois/{doi}` carrying the same payload when the create call's
response has status 422, and none for any other transport outcome. -/
theorem createOrUpdate_put_iff_422 (c : DataciteRESTAPIClient)
    (t : HttpRequest → TransportResult) (data doi : String) :
    (create_or_update_doi c t data doi).2.filter
        (fun q => q.method == Method.PUT)
      = (match t (postRequest c data) with
         | TransportResult.resp r =>
             if r.status = 422 then [putRequest c data doi] else []
         | TransportResult.transportError => []) := by
  simp only [create_or_update_doi]
  cases ht : t (postRequest c data) with
  | resp r =>
    by_cases h422 : r.status = 422
    · cases ht2 : t (putRequest c data doi) with
      | resp r2 =>
        by_cases herr2 : 400 ≤ r2.status ∧ r2.status < 600
        · simp [h422, ht2, isErrorStatus, postRequest, putRequest, herr2]
        · simp [h422, ht2, isErrorStatus, postRequest, putRequest, herr2]
      | transportError =>
        simp [h422, ht2, isErrorStatus, postRequest, putRequest]
    · by_cases herr : isErrorStatus r.status = true
      · simp [herr, h422, postRequest]
      · simp [Bool.not_eq_true] at herr
        simp [herr, h422, postRequest]
  | transportError =>
    simp [postRequest]

/-- C3 counterexample: with the POST answered 422 and the fallback PUT
answered 500, `create_or_update_doi` does not return the all-false tuple
with the failure response: the `raise_for_status` on the PUT response is
inside the except handler and its HTTPError propagates to the caller. -/
theorem createOrUpdate_putFailure_cex :
    (create_or_update_doi client0 (transport422then 500) "payload"
        "10.5072/1").1
      = Except.error (PyError.httpError ⟨500⟩)
    ∧ ∀ r : Option Response,
        (create_or_update_doi client0 (transport422then 500) "payload"
            "10.5072/1").1
          ≠ Except.ok (false, false, r) := by
  refine ⟨rfl, ?_⟩
  intro r h
  have hv : (create_or_update_doi client0 (transport422then 500) "payload"
      "10.5072/1").1 = Except.error (PyError.httpError ⟨500⟩) := rfl
  rw [hv] at h
  exact Except.noConfusion h

/-- C3 amended: when the fallback PUT issued after a 422 create response
itself fails with an HTTP error, `create_or_update_doi` propagates that
HTTPError (carrying the failing PUT response) to the caller instead of
returning a tuple. -/
theorem createOrUpdate_putFailure_raises (c : DataciteRESTAPIClient)
    (t : HttpRequest → TransportResult) (data doi : String) (r r2 : Response)
    (hpost : t (postRequest c data) = TransportResult.resp r)
    (h422 : r.status = 422)
    (hput : t (putRequest c data doi) = TransportResult.resp r2)
    (herr : isErrorStatus r2.status = true) :
    create_or_update_doi c t data doi
      = (Except.error (PyError.httpError r2),
         [postRequest c data, putRequest c data doi]) := by
  simp only [create_or_update_doi]
  rw [hpost, hput]
  simp [h422, herr, isErrorStatus] at herr ⊢
  simp [herr]

/-- C3 amended witness: instantiation at the 422-then-500 transport. -/
theorem createOrUpdate_putFailure_raises_witness :
    create_or_update_doi client0 (transport422then 500) "data" "10.5072/2"
      = (Except.error (PyError.httpError ⟨500⟩),
         [postRequest client0 "data", putRequest client0 "data" "10.5072/2"]) :=
  createOrUpdate_putFailure_raises client0 (transport422then 500) "data"
    "10.5072/2" ⟨422⟩ ⟨500⟩ rfl rfl rfl rfl

/-- C6 counterexample: a transport-level failure of the POST is not
reported as the all-false outcome tuple; the connection error is not an
HTTPError, so the except handler does not catch it and it propagates. -/
theorem createOrUpdate_transportFailure_cex :
    (create_or_update_doi client0 transportDown "payload" "10.5072/1").1
      = Except.error PyError.transportError
    ∧ ∀ r : Option Response,
        (create_or_update_doi client0 transportDown "payload" "10.5072/1").1
          ≠ Except.ok (false, false, r) := by
  refine ⟨rfl, ?_⟩
  intro r h
  have hv : (create_or_update_doi client0 transportDown "payload"
      "10.5072/1").1 = Except.error PyError.transportError := rfl
  rw [hv] at h
  exact Except.noConfusion h

/-- C6 amended: a transport-level failure (connection error or timeout, no
response received) anywhere during `create_or_update_doi` — whether on the
create (POST) call or on the fallback update (PUT) issued after a 422 —
is not retried and propagates to the caller as a raised exception, since
the except clause catches only HTTPError; no request beyond the failing
one is issued. -/
theorem createOrUpdate_transportFailure_raises (c : DataciteRESTAPIClient)
    (t : HttpRequest → TransportResult) (data doi : String) :
    (t (postRequest c data) = TransportResult.transportError →
      create_or_update_doi c t data doi
        = (Except.error PyError.transportError, [postRequest c data]))
    ∧ (∀ r : Response, t (postRequest c data) = TransportResult.resp r →
        r.status = 422 →
        t (putRequest c data doi) = TransportResult.transportError →
        create_or_update_doi c t data doi
          = (Except.error PyError.transportError,
             [postRequest c data, putRequest c data doi])) := by
  constructor
  · intro h
    simp only [create_or_update_doi]
    rw [h]
  · intro r hpost h422 hput
    simp [create_or_update_doi, hpost, hput, h422, isErrorStatus]

/-- C6 amended witness: instantiation at the everywhere-failing transport
(POST fails at the connection level) and at the 422-then-connection-failure
transport (the fallback PUT fails at the connection level). -/
theorem createOrUpdate_transportFailure_raises_witness :
    create_or_update_doi client0 transportDown "data" "10.5072/3"
      = (Except.error PyError.transportError, [postRequest client0 "data"])
    ∧ create_or_update_doi client0 transport422down "data" "10.5072/3"
      = (Except.error PyError.transportError,
         [postRequest client0 "data", putRequest client0 "data" "10.5072/3"]) :=
  ⟨(createOrUpdate_transportFailure_raises client0 transportDown "data"
      "10.5072/3").1 rfl,
   (createOrUpdate_transportFailure_raises client0 transport422down "data"
      "10.5072/3").2 ⟨422⟩ rfl rfl rfl⟩

/-- C7: when the create (POST) call returns a success (2xx) response, no
update (PUT) call is issued — the only request in the trace is the POST —
and the outcome is (created = true, updated = false) with that response. -/
theorem createOrUpdate_createSuccess (c : DataciteRESTAPIClient)
    (t : HttpRequest → TransportResult) (data doi : String) (r : Response)
    (hpost : t (postRequest c data) = TransportResult.resp r)
    (h2xx : 200 ≤ r.status ∧ r.status < 300) :
    create_or_update_doi c t data doi
      = (Except.ok (true, false, some r), [postRequest c data]) := by
  have hok : isErrorStatus r.status = false := by
    simp only [isErrorStatus, Bool.and_eq_false_iff, decide_eq_false_iff_not]
    omega
  simp only [create_or_update_doi]
  rw [hpost]
  simp [hok]

/-- C7 witness: instantiation at a transport answering 201 Created. -/
theorem createOrUpdate_createSuccess_witness :
    create_or_update_doi client0 (transportConst 201) "data" "10.5072/4"
      = (Except.ok (true, false, some ⟨201⟩), [postRequest client0 "data"]) :=
  createOrUpdate_createSuccess client0 (transportConst 201) "data" "10.5072/4"
    ⟨201⟩ rfl (by decide)

/-- The number of requests the retry loop issues is bounded by the attempt
budget (starting from attempt index i with fuel remaining attempts). -/
theorem retryGo_attempts_le (t : Nat → TransportResult) :
    ∀ (fuel i sleeps : Nat) (last : Option Response),
      (retryGo t fuel i sleeps last).2.1 ≤ i + fuel := by
  intro fuel
  induction fuel with
  | zero => intro i sleeps last; simp [retryGo]
  | succ m ih =>
    intro i sleeps last
    simp only [retryGo]
    cases ht : t i with
    | transportError =>
      show i + 1 ≤ i + (m + 1)
      omega
    | resp r =>
      show (if isErrorStatus r.status = true then
          retryGo t m (i + 1) (sleeps + 1) (some r)
        else (Except.ok (some r), i + 1, sleeps)).2.1 ≤ i + (m + 1)
      split
      · have := ih (i + 1) (sleeps + 1) (some r)
        omega
      · show i + 1 ≤ i + (m + 1)
        omega

/-- One unfolding step of the retry loop over a transport that answers
every attempt with a response. -/
theorem retryGo_resp_succ (f : Nat → Response) (fuel i sleeps : Nat)
    (last : Option Response) :
    retryGo (fun n => TransportResult.resp (f n)) (fuel + 1) i sleeps last
      = if isErrorStatus (f i).status then
          retryGo (fun n => TransportResult.resp (f n)) fuel (i + 1)
            (sleeps + 1) (some (f i))
        else (Except.ok (some (f i)), i + 1, sleeps) := rfl

/-- When every attempt in the remaining budget gets an HTTP-error
response, the loop performs them all, sleeping once after each, and then
returns the last response seen. -/
theorem retryGo_all_errors (f : Nat → Response) :
    ∀ (m i sleeps : Nat) (last : Option Response),
      (∀ n, n ≤ m → isErrorStatus (f (i + n)).status = true) →
      retryGo (fun n => TransportResult.resp (f n)) (m + 1) i sleeps last
        = (Except.ok (some (f (i + m))), i + m + 1, sleeps + m + 1) := by
  intro m
  induction m with
  | zero =>
    intro i sleeps last h
    have h0 : isErrorStatus (f i).status = true := by
      have := h 0 (Nat.le_refl 0)
      rwa [Nat.add_zero] at this
    simp [retryGo, h0]
  | succ m ih =>
    intro i sleeps last h
    have h0 : isErrorStatus (f i).status = true := by
      have := h 0 (Nat.zero_le _)
      rwa [Nat.add_zero] at this
    have herr2 : ∀ n, n ≤ m → isErrorStatus (f (i + 1 + n)).status = true := by
      intro n hn
      have := h (n + 1) (by omega)
      have e : i + (n + 1) = i + 1 + n := by omega
      rwa [e] at this
    have hrec := ih (i + 1) (sleeps + 1) (some (f i)) herr2
    rw [retryGo_resp_succ, if_pos h0, hrec]
    have e1 : i + 1 + m = i + (m + 1) := by omega
    have e2 : sleeps + 1 + m = sleeps + (m + 1) := by omega
    rw [e1, e2]

/-- When the first non-error response arrives at attempt index i + k
(within budget), the loop returns it immediately: k + 1 requests beyond
index i have been issued and k sleeps performed. -/
theorem retryGo_first_success (f : Nat → Response) :
    ∀ (k fuel i sleeps : Nat) (last : Option Response),
      k < fuel →
      (∀ n, n < k → isErrorStatus (f (i + n)).status = true) →
      isErrorStatus (f (i + k)).status = false →
      retryGo (fun n => TransportResult.resp (f n)) fuel i sleeps last
        = (Except.ok (some (f (i + k))), i + k + 1, sleeps + k) := by
  intro k
  induction k with
  | zero =>
    intro fuel i sleeps last hk herr hsucc
    cases fuel with
    | zero => omega
    | succ m =>
      rw [Nat.add_zero] at hsucc
      simp [retryGo, hsucc]
  | succ k ih =>
    intro fuel i sleeps last hk herr hsucc
    cases fuel with
    | zero => omega
    | succ m =>
      have h0 : isErrorStatus (f i).status = true := by
        have := herr 0 (by omega)
        rwa [Nat.add_zero] at this
      have herr2 : ∀ n, n < k → isErrorStatus (f (i + 1 + n)).status = true := by
        intro n hn
        have := herr (n + 1) (by omega)
        have e : i + (n + 1) = i + 1 + n := by omega
        rwa [e] at this
      have hsucc2 : isErrorStatus (f (i + 1 + k)).status = false := by
        have e : i + (k + 1) = i + 1 + k := by omega
        rwa [e] at hsucc
      have hrec := ih m (i + 1) (sleeps + 1) (some (f i)) (by omega) herr2 hsucc2
      rw [retryGo_resp_succ, if_pos h0, hrec]
      have e1 : i + 1 + k = i + (k + 1) := by omega
      have e2 : sleeps + 1 + k = sleeps + (k + 1) := by omega
      rw [e1, e2]

/-- The retry policy the source intends — proved of the repaired variant
`retry_on_failure_intended` with the instance's attempt budget of 10, over
any transport that answers every attempt with a response: at most 10
requests are issued; if all 10 responses are HTTP errors the 10th (final)
failing response is returned as a value, not an exception, after 10
attempts and 10 one-second sleeps (one after each error response); on the
first non-error response at attempt k that response is returned
immediately, after k + 1 requests and k sleeps. Recorded for contrast with
`retryOnFailure_nameError`; not itself one of the claim theorems, since
the source's `retry_on_failure` never reaches this loop. -/
theorem retryOnFailureIntended_policy (f : Nat → Response) :
    (retry_on_failure_intended 10 (fun n => TransportResult.resp (f n))).2.1
      ≤ 10
    ∧ ((∀ n, n < 10 → isErrorStatus (f n).status = true) →
        retry_on_failure_intended 10 (fun n => TransportResult.resp (f n))
          = (Except.ok (some (f 9)), 10, 10))
    ∧ (∀ k, k < 10 →
        (∀ n, n < k → isErrorStatus (f n).status = true) →
        isErrorStatus (f k).status = false →
        retry_on_failure_intended 10 (fun n => TransportResult.resp (f n))
          = (Except.ok (some (f k)), k + 1, k)) := by
  refine ⟨?_, ?_, ?_⟩
  · have := retryGo_attempts_le (fun n => TransportResult.resp (f n)) 10 0 0 none
    simpa [retry_on_failure_intended] using this
  · intro h
    have hall : ∀ n, n ≤ 9 → isErrorStatus (f (0 + n)).status = true := by
      intro n hn
      simpa using h n (by omega)
    have := retryGo_all_errors f 9 0 0 none hall
    simpa [retry_on_failure_intended] using this
  · intro k hk herr hsucc
    have herr2 : ∀ n, n < k → isErrorStatus (f (0 + n)).status = true := by
      intro n hn
      simpa using herr n hn
    have hsucc2 : isErrorStatus (f (0 + k)).status = false := by
      simpa using hsucc
    have := retryGo_first_success f k 10 0 0 none hk herr2 hsucc2
    simpa [retry_on_failure_intended] using this

/-- C4: the retry helper the source defines cannot execute its loop: with
`self` unbound in its body, every invocation of `retry_on_failure` raises
NameError at the loop header, before the first attempt — shown here at a
concrete invocation (the usage-report PUT against a transport answering
500 on every attempt, where the claim expects the 10th failing response to
be returned) — and for every invocation whatsoever no request is issued
and no sleep is performed, so no response is ever returned. -/
theorem retryOnFailure_nameError :
    retry_on_failure "https://api.test.datacite.org/reports/0a123456"
        Method.PUT "report-contents" usageClient0.headers
        (fun _ => TransportResult.resp ⟨500⟩)
      = (Except.error (PyError.nameError "self"), 0, 0)
    ∧ ∀ (url : String) (method : Method) (data : String)
        (hs : List (String × String)) (t : Nat → TransportResult),
        (retry_on_failure url method data hs t).1
            = Except.error (PyError.nameError "self")
          ∧ (retry_on_failure url method data hs t).2 = (0, 0) :=
  ⟨rfl, fun _ _ _ _ _ => ⟨rfl, rfl⟩⟩

/-- C5: evaluating `delete_doi` at a concrete identifier and a transport
that would answer 200 OK: the unbound name `headers` raises NameError, so
no `(deleted, response)` tuple is produced; moreover for every client,
transport and identifier no DELETE request is ever issued. -/
theorem deleteDoi_nameError :
    delete_doi client0 (transportConst 200) "10.5072/1"
      = (Except.error (PyError.nameError "headers"), [])
    ∧ ∀ (c : DataciteRESTAPIClient) (t : HttpRequest → TransportResult)
        (doi : String), (delete_doi c t doi).2 = [] :=
  ⟨rfl, fun _ _ _ => rfl⟩

/-- The behaviour the claim and spec describe holds of the repaired
variant `delete_doi_intended` (with `headers` bound to the instance
headers): one DELETE, deleted = true exactly on a success status, false
with the error response attached otherwise. Recorded for contrast with
`deleteDoi_nameError`; not itself one of the claim theorems. -/
theorem deleteDoi_intended_contract (c : DataciteRESTAPIClient)
    (t : HttpRequest → TransportResult) (doi : String) (r : Response)
    (h : t (deleteRequest c doi doiHeaders) = TransportResult.resp r) :
    delete_doi_intended c t doi
      = (Except.ok (!isErrorStatus r.status, some r),
         [deleteRequest c doi doiHeaders]) := by
  simp only [delete_doi_intended]
  rw [h]
  by_cases herr : isErrorStatus r.status = true
  · simp [herr]
  · simp [Bool.not_eq_true] at herr
    simp [herr]

/-- C8: the Usage Report Submitter's constructor raises the
authentication error for a null or empty bearer token (no client instance
is built, and the constructor performs no transport call at all), and for
a non-empty token it succeeds and stores the header
`Authorization: Bearer {token}` alongside the gzip headers and the
attempt budget of 10. -/
theorem usageReportsInit_auth (url : String) (bearer : Option String) :
    ((bearer = none ∨ bearer = some "") →
      usageReportsClientInit url bearer
        = Except.error PyError.dataciteAPIAuthenticationError)
    ∧ (∀ b : String, bearer = some b → b ≠ "" →
        usageReportsClientInit url bearer
          = Except.ok
              { url := url
                bearer := b
                headers :=
                  [("Content-Type", "application/gzip"),
                   ("Content-Encoding", "gzip"),
                   ("Accept", "gzip"),
                   ("Authorization", "Bearer " ++ b)]
                maximum_attempts_on_failure := 10 }) := by
  constructor
  · intro h
    rcases h with h | h <;> subst h <;> simp [usageReportsClientInit]
  · intro b hb hne
    subst hb
    simp [usageReportsClientInit, hne]

/-- C8 witness: the empty bearer token is rejected. -/
theorem usageReportsInit_auth_witness :
    usageReportsClientInit "https://api.test.datacite.org" (some "")
      = Except.error PyError.dataciteAPIAuthenticationError :=
  (usageReportsInit_auth "https://api.test.datacite.org" (some "")).1
    (Or.inr rfl)

/-- C9: the spec-modelled `retrieve` issues a single GET request to the
resource path and, when the transport returns a response, yields the
response object on a 2xx status and null on any 4xx/5xx status, in both
cases returning (not raising). -/
theorem retrieve_contract (c : DataciteRESTAPIClient)
    (t : HttpRequest → TransportResult) (doi : String) (r : Response)
    (h : t (getRequest c doi) = TransportResult.resp r) :
    ((200 ≤ r.status ∧ r.status < 300) →
      retrieve c t doi = (Except.ok (some r), [getRequest c doi]))
    ∧ ((400 ≤ r.status ∧ r.status < 600) →
      retrieve c t doi = (Except.ok none, [getRequest c doi])) := by
  constructor
  · intro h2xx
    have hok : isErrorStatus r.status = false := by
      simp only [isErrorStatus, Bool.and_eq_false_iff, decide_eq_false_iff_not]
      omega
    simp only [retrieve]
    rw [h]
    simp [hok]
  · intro herr
    have hbad : isErrorStatus r.status = true := by
      simp only [isErrorStatus, Bool.and_eq_true, decide_eq_true_eq]
      omega
    simp only [retrieve]
    rw [h]
    simp [hbad]

/-- C9 witness: instantiation at a transport answering 404. -/
theorem retrieve_contract_witness :
    retrieve client0 (transportConst 404) "10.5072/1"
      = (Except.ok none, [getRequest client0 "10.5072/1"]) :=
  (retrieve_contract client0 (transportConst 404) "10.5072/1" ⟨404⟩ rfl).2
    (by decide)

/-- C10: for every client instance, readable file contents and non-empty
uuid, `create_or_update_report` raises NameError on the unbound name
`retry_if_500` after reading the file and before issuing any HTTP request
(the issued-request trace is empty), so the operation never returns a
response; the defined helper `retry_on_failure` is not invoked. -/
theorem createOrUpdateReport_nameError (c : DataciteUsageReportsAPIClient)
    (fileContents uuid : String) (h : uuid ≠ "") :
    create_or_update_report c fileContents uuid
      = (Except.error (PyError.nameError "retry_if_500"), []) := by
  simp [create_or_update_report, h]

/-- C10 witness: instantiation at the concrete usage-reports client and a
concrete report uuid. -/
theorem createOrUpdateReport_nameError_witness :
    create_or_update_report usageClient0 "report-contents"
        "0a123456-1234-1234-1234-123456789abc"
      = (Except.error (PyError.nameError "retry_if_500"), []) :=
  createOrUpdateReport_nameError usageClient0 "report-contents"
    "0a123456-1234-1234-1234-123456789abc" (by decide)
